import Mathlib

/-!
Verification development for the `dimplex-controller-py` authentication core
(`dimplex_controller/auth.py`): token-lifecycle state machine of `AuthManager`.

The Python code is shallowly embedded: each `AuthManager` method becomes a pure
Lean function that takes the current wall-clock time, the current token state,
and the environment data the method would obtain over HTTP (responses of the
token endpoint, the redirect chain, and so on), and returns the issued
requests, an `Except`-style outcome (`DimplexAuthError` is modelled as
`AuthError`), and the resulting token state.  Wall-clock times and HTTP status
codes are `Int`.  Transport-level failures (DNS, TLS, cancellation) are outside
the model: every HTTP call is assumed to yield a response.
-/

deriving instance DecidableEq for Except

namespace Dimplex

/-- Constants from `dimplex_controller/const.py`. -/
def CLIENT_ID : String := "6c983ca3-506e-4933-8993-0e18e6a24bbd"

/-- Constant `SCOPE` from `const.py`. -/
def SCOPE : String :=
  "https://gdhvb2c.onmicrosoft.com/Mobile/read offline_access openid profile"

/-- Constant `REDIRECT_URI` from `const.py`. -/
def REDIRECT_URI : String := "msal6c983ca3-506e-4933-8993-0e18e6a24bbd://auth/"

/-- Constant `HTTP_OK` from `const.py`. -/
def HTTP_OK : Int := 200

/-- The mutable token fields of `AuthManager` (`_access_token`,
`_refresh_token`, `_expires_at`).  `None` is `Option.none`; `_expires_at` is a
wall-clock instant in seconds (the Python float is modelled as `Int`, which is
exact on the integer instants the claims use). -/
structure TokenState where
  access_token : Option String
  refresh_token : Option String
  expires_at : Int
deriving DecidableEq, Repr

/-- The fields `_update_tokens` reads from the token endpoint's parsed JSON
body via `data.get`: `access_token`, `refresh_token`, and `expires_in`
(absent field ↦ `none`). -/
structure TokenResponse where
  access_token : Option String
  refresh_token : Option String
  expires_in : Option Int
deriving DecidableEq, Repr

/-- An HTTP response from the token endpoint: `resp.status`, `resp.text()`,
and the result of `resp.json()` (`jsonData`).  The claims only exercise
responses whose body parses as JSON, so the parsed form is carried directly. -/
structure HttpResponse where
  status : Int
  text : String
  jsonData : TokenResponse
deriving DecidableEq, Repr

/-- A form-encoded POST to `{AUTH_URL}/token`, with the payload fields the two
call sites build (`refresh_tokens` lines 54-60, `exchange_code` lines 99-105).
A field that a payload omits is `none`; `refresh_token` is doubly optional
because `refresh_tokens` sends the stored token even when it is `None`. -/
structure TokenRequest where
  client_id : String
  grant_type : String
  refresh_token : Option (Option String)
  code : Option String
  redirect_uri : Option String
  scope : String
  client_info : Option String
deriving DecidableEq, Repr

/-- Exception `DimplexAuthError` (exceptions.py); it carries only its message
string. -/
structure AuthError where
  message : String
deriving DecidableEq, Repr

/-- Result of one `AuthManager` coroutine: the token-endpoint requests it
issued, its outcome, and the token state after the call. -/
structure CallResult (α : Type) where
  requests : List TokenRequest
  outcome : Except AuthError α
  state : TokenState
deriving DecidableEq

/-- Python truthiness of an optional string: `not x` is true exactly when `x`
is `None` or the empty string (used by `if not self._refresh_token`). -/
def optStrTruthy : Option String → Bool
  | none => false
  | some s => s ≠ ""

/-- Property `AuthManager.is_authenticated` (auth.py lines 34-37):
`self._access_token is not None and time.time() < self._expires_at`. -/
def is_authenticated (now : Int) (st : TokenState) : Bool :=
  st.access_token.isSome && decide (now < st.expires_at)

/-- Method `AuthManager._update_tokens` (auth.py lines 71-76): overwrite both tokens
from `data.get`, and set `_expires_at = time.time() + data.get("expires_in",
3600) - 60`.  The previous state is overwritten wholesale. -/
def update_tokens (now : Int) (_st : TokenState) (data : TokenResponse) : TokenState :=
  { access_token := data.access_token
    refresh_token := data.refresh_token
    expires_at := now + data.expires_in.getD 3600 - 60 }

/-- The payload `refresh_tokens` posts (auth.py lines 54-60). -/
def refreshPayload (st : TokenState) : TokenRequest :=
  { client_id := CLIENT_ID
    grant_type := "refresh_token"
    refresh_token := some st.refresh_token
    code := none
    redirect_uri := none
    scope := SCOPE
    client_info := some "1" }

/-- The payload `exchange_code` posts (auth.py lines 99-105). -/
def exchangePayload (code : String) : TokenRequest :=
  { client_id := CLIENT_ID
    grant_type := "authorization_code"
    refresh_token := none
    code := some code
    redirect_uri := some REDIRECT_URI
    scope := SCOPE
    client_info := none }

/-- Method `AuthManager.refresh_tokens` (auth.py lines 51-69).  It posts the refresh
payload unconditionally (there is no missing-refresh-token guard here); on
`resp.status != HTTP_OK` it raises `DimplexAuthError(f"Failed to refresh
token: {resp.status} - {text}")` leaving the state untouched, otherwise it
applies `_update_tokens` to `resp.json()`. -/
def refresh_tokens (now : Int) (st : TokenState) (resp : HttpResponse) :
    CallResult Unit :=
  { requests := [refreshPayload st]
    outcome :=
      if resp.status ≠ HTTP_OK then
        .error ⟨"Failed to refresh token: " ++ toString resp.status ++ " - " ++ resp.text⟩
      else .ok ()
    state := if resp.status ≠ HTTP_OK then st else update_tokens now st resp.jsonData }

/-- Method `AuthManager.exchange_code` (auth.py lines 97-121).  On `resp.status !=
HTTP_OK` it raises `DimplexAuthError(f"Failed to exchange code: {text}")` —
the message interpolates only the body, not the status — leaving the state
untouched; otherwise it applies `_update_tokens` to `resp.json()`. -/
def exchange_code (now : Int) (st : TokenState) (_code : String) (resp : HttpResponse) :
    CallResult Unit :=
  { requests := [exchangePayload _code]
    outcome :=
      if resp.status ≠ HTTP_OK then
        .error ⟨"Failed to exchange code: " ++ resp.text⟩
      else .ok ()
    state := if resp.status ≠ HTTP_OK then st else update_tokens now st resp.jsonData }

/-- Method `AuthManager.get_access_token` (auth.py lines 39-49).  First the guard
`if not self._refresh_token: raise DimplexAuthError(...)` — it runs before the
`is_authenticated` check, so it fires even when a valid access token is held.
Then: return the cached token if authenticated, else run `refresh_tokens`
(whose response is `resp`) and return the post-refresh `_access_token`. -/
def get_access_token (now : Int) (st : TokenState) (resp : HttpResponse) :
    CallResult (Option String) :=
  if ¬ optStrTruthy st.refresh_token then
    { requests := []
      outcome := .error ⟨"No refresh token available. User must authenticate first."⟩
      state := st }
  else if is_authenticated now st then
    { requests := [], outcome := .ok st.access_token, state := st }
  else
    let r := refresh_tokens now st resp
    { requests := r.requests
      outcome := r.outcome.map fun _ => r.state.access_token
      state := r.state }

/-! JSON values, as produced by Python's `json.loads` / consumed by
`json.dump`.  Numbers are modelled as `Int` (every numeric value the claims
exercise is an integer instant or lifetime; JSON floats are out of scope). -/

/-- A parsed JSON value. -/
inductive Json where
  | null
  | bool (b : Bool)
  | num (n : Int)
  | str (s : String)
  | arr (elems : List Json)
  | obj (fields : List (String × Json))

/-- Python `dict.get(k)` on a parsed JSON value: `none` when the key is absent
or the value is not a dict. -/
def jsonGet (j : Json) (k : String) : Option Json :=
  match j with
  | .obj fields => List.lookup k fields
  | _ => none

/-- Python truthiness of a `dict.get` result (`None`, `""`, `0`, `False`,
`[]`, and empty dicts are falsy), as used by
`if not csrf_token or not trans_id`. -/
def jsonTruthy : Option Json → Bool
  | none => false
  | some .null => false
  | some (.bool b) => b
  | some (.num n) => n ≠ 0
  | some (.str s) => s ≠ ""
  | some (.arr elems) => !elems.isEmpty
  | some (.obj fields) => !fields.isEmpty

/-- Test `resp_json.get("status") != "200"` (negated): the value compares
equal to the Python string `"200"` exactly when it is that string. -/
def jsonIsStr200 : Option Json → Bool
  | some (.str s) => s = "200"
  | _ => false

/-- Rendering of a JSON value by a Python f-string (`str()`).  Scalars are
rendered faithfully; the rendering of containers is abbreviated, as no claim
exercises an error message built from a container value. -/
def pyStr : Json → String
  | .null => "None"
  | .bool b => if b then "True" else "False"
  | .num n => toString n
  | .str s => s
  | .arr _ => "[...]"
  | .obj _ => "\x7b...\x7d"

/-- Rendering of `resp_json.get(k)` in an f-string: Python `None` prints as
`None`. -/
def pyStrOpt : Option Json → String
  | none => "None"
  | some v => pyStr v

/-! Token-file persistence (`save_tokens` / `load_tokens`, auth.py lines
283-304).  The filesystem is a map from paths to file contents; a file either
holds a JSON value (a file whose text `json.load` parses) or is `badFile`
(exists but unreadable or not valid JSON — `json.load`/`open` raises).  The
`json.dump`/`json.load` pair of the Python standard library is taken to
round-trip JSON values; the repository code under test is the control flow
around it. -/

/-- Content of an existing file, as seen through `open` + `json.load`. -/
inductive FileContent where
  | jsonFile (j : Json)
  | badFile

/-- A filesystem: `none` at a path means `os.path.exists` is false there. -/
def FileSystem : Type := String → Option FileContent

/-- Classmethod `AuthManager.load_tokens` (auth.py lines 294-304): return
`None` when the file does not exist; `try` to open and parse it, and on any
exception log and return `None`.  The `Option Json` return type records that
no exception can propagate. -/
def load_tokens (fs : FileSystem) (file_path : String) : Option Json :=
  match fs file_path with
  | none => none
  | some (.jsonFile j) => some j
  | some .badFile => none

/-- Encoding of an optional token string into the saved JSON blob
(`None` serializes as JSON `null`). -/
def optToJson : Option String → Json
  | none => .null
  | some s => .str s

/-- The blob `save_tokens` writes (auth.py lines 285-289):
`{"access_token": ..., "refresh_token": ..., "expires_at": ...}`. -/
def tokenBlob (st : TokenState) : Json :=
  .obj [("access_token", optToJson st.access_token),
        ("refresh_token", optToJson st.refresh_token),
        ("expires_at", .num st.expires_at)]

/-- Method `AuthManager.save_tokens` (auth.py lines 283-292): write the blob
to `file_path`, leaving every other path alone. -/
def save_tokens (fs : FileSystem) (file_path : String) (st : TokenState) : FileSystem :=
  fun p => if p = file_path then some (.jsonFile (tokenBlob st)) else fs p

/-- Reading a token string back out of a loaded blob value, as
`AuthManager.__init__` does with `token_data.get(...)`: a JSON string is a
token, `null` (or an absent key) is `None`. -/
def jsonGetStr : Option Json → Option String
  | some (.str s) => some s
  | _ => none

/-- Constructor `AuthManager.__init__` (auth.py lines 27-32), restricted to
its token fields: `token_data.get("access_token")`,
`token_data.get("refresh_token")`, `token_data.get("expires_at", 0)`, with
everything defaulting when `token_data` is `None`.  The stored `_expires_at`
is numeric in every reachable blob, so a non-numeric value also defaults
to 0 here. -/
def initAuthManager (token_data : Option Json) : TokenState :=
  match token_data with
  | none => { access_token := none, refresh_token := none, expires_at := 0 }
  | some j =>
    { access_token := jsonGetStr (jsonGet j "access_token")
      refresh_token := jsonGetStr (jsonGet j "refresh_token")
      expires_at :=
        match jsonGet j "expires_at" with
        | some (.num n) => n
        | _ => 0 }

/-! URL and query-string parsing used by the headless-login redirect loop:
`urlparse(location).query` and `parse_qs(query)` from `urllib.parse`
(standard library).  `urlsplit` strips the fragment (everything from the
first `#`) and takes the query as everything after the first `?` of what
remains; `parse_qs` splits on `&`, splits each pair at its first `=`, and —
with the default `keep_blank_values=False` — drops pairs with no `=` or an
empty value.  Percent-decoding and `+`-decoding are identities on every code
string the claims exercise and are omitted. -/

/-- Characters of a list up to (excluding) the first occurrence of `c`. -/
def takeBeforeChar (c : Char) : List Char → List Char
  | [] => []
  | x :: xs => if x = c then [] else x :: takeBeforeChar c xs

/-- Characters of a list after the first occurrence of `c`, or `none` when
`c` does not occur. -/
def afterFirstChar (c : Char) : List Char → Option (List Char)
  | [] => none
  | x :: xs => if x = c then some xs else afterFirstChar c xs

/-- Query component of a URL, per `urlparse`: drop the fragment, then take
what follows the first `?` (empty when there is none). -/
def urlQuery (url : String) : List Char :=
  (afterFirstChar '?' (takeBeforeChar '#' url.toList)).getD []

/-- Groups of a character list split on a separator character (Python
`str.split(sep)`): `splitOnChar '&' "a=1&b=2"` gives `["a=1", "b=2"]`. -/
def splitOnChar (c : Char) : List Char → List (List Char)
  | [] => [[]]
  | x :: xs =>
    let r := splitOnChar c xs
    if x = c then [] :: r
    else
      match r with
      | [] => [[x]]
      | g :: gs => (x :: g) :: gs

/-- First value bound to `key` by `parse_qs` over a list of `&`-separated
pairs: skip pairs without `=` and pairs whose value is empty
(`keep_blank_values=False`); otherwise match the name against `key`. -/
def firstQsValue (key : List Char) : List (List Char) → Option (List Char)
  | [] => none
  | p :: rest =>
    match afterFirstChar '=' p with
    | none => firstQsValue key rest
    | some v =>
      if takeBeforeChar '=' p = key ∧ v ≠ [] then some v
      else firstQsValue key rest

/-- Expression `parse_qs(urlparse(location).query).get("code", [""])[0]` from
auth.py lines 266-268: the first `code` value of the location's query string,
or `""` when there is none (`parse_qs` never binds a key to an empty list). -/
def extractCode (location : String) : String :=
  match firstQsValue "code".toList (splitOnChar '&' (urlQuery location)) with
  | none => ""
  | some v => ⟨v⟩

/-- Worker for `strContains`: scan every suffix for the pattern as a prefix. -/
def strContainsAux (pat : List Char) : List Char → Bool
  | [] => pat.isEmpty
  | x :: xs => List.isPrefixOf pat (x :: xs) || strContainsAux pat xs

/-- Python substring test `pat in s`. -/
def strContains (s pat : String) : Bool :=
  strContainsAux pat.toList s.toList

/-- Python `location.startswith(REDIRECT_URI)`. -/
def strStarts (s pat : String) : Bool :=
  List.isPrefixOf pat.toList s.toList

/-- Success test of auth.py line 262:
`location.startswith(REDIRECT_URI) or "code=" in location`. -/
def locationHasCode (location : String) : Bool :=
  strStarts location REDIRECT_URI || strContains location "code="

/-- One response observed by the manual redirect loop: `resp.status` and
`resp.headers.get("Location")`. -/
structure RedirectHop where
  status : Int
  location : Option String
deriving DecidableEq, Repr

/-- Body of the `for _ in range(10)` loop of auth.py lines 255-273, with the
remaining iteration budget as fuel.  Each GET of the loop is answered by the
next hop of the chain; a redirect status with no `Location` breaks with no
code; a matching `Location` breaks with the extracted (possibly empty) code;
any other status breaks; a non-matching redirect continues at the next hop.
A chain shorter than the budget behaves like a terminal non-redirect
response. -/
def redirectStep (pending : Nat) (hops : List RedirectHop) : Option String :=
  match pending, hops with
  | 0, _ => none
  | _ + 1, [] => none
  | n + 1, hop :: rest =>
    if hop.status = 302 ∨ hop.status = 303 ∨ hop.status = 301 then
      match hop.location with
      | none => none
      | some loc =>
        if locationHasCode loc then some (extractCode loc)
        else redirectStep n rest
    else none

/-- The manual redirect-following phase: at most 10 hops. -/
def redirectLoop (hops : List RedirectHop) : Option String :=
  redirectStep 10 hops

/-- Message of the AuthError raised when the loop ends without a code
(auth.py lines 275-278). -/
def noCodeMessage : String :=
  "Failed to obtain auth code after successful login. Redirect URI might have changed."

/-- Outcome of step 2 of `headless_login`: the regex search for
`SETTINGS = {...};` in the login page HTML followed by `json.loads` on the
match (auth.py lines 141-148).  The regex and the JSON parser are standard
library collaborators, so they are modelled by their outcome. -/
inductive SettingsExtract where
  | noMatch
  | badJson
  | parsed (settings : Json)

/-- Outcome of `json.loads` on the credential-submission response body
(auth.py lines 208-213). -/
inductive CredBody where
  | notJson (text : String)
  | jsonBody (j : Json)

/-- Environment of one `headless_login` run: the data its HTTP calls return.
The initial login-page GET, the ignored re-fetch of the authorize URL (auth.py
lines 236-249, whose outcome is discarded), and the form-field scraping do not
influence the token state or the extracted code and carry no data here. -/
structure HeadlessEnv where
  settings : SettingsExtract
  credResp : CredBody
  hops : List RedirectHop
  tokenResp : HttpResponse

/-- Result of `headless_login`: outcome, post-call token state, and the code
passed to `exchange_code` when the flow reached it. -/
structure HeadlessResult where
  outcome : Except AuthError Unit
  state : TokenState
  exchangedCode : Option String

/-- The error message of auth.py lines 215-218, built from the parsed
credential-submission response. -/
def loginFailedMessage (j : Json) : String :=
  let msgVal :=
    if jsonTruthy (jsonGet j "message") then (jsonGet j "message").getD .null
    else (jsonGet j "reason").getD (.str "Unknown reason")
  "Login failed: " ++ pyStrOpt (jsonGet j "status") ++ " - " ++ pyStr msgVal

/-- Method `AuthManager.headless_login` (auth.py lines 123-281): fail unless
the SETTINGS blob is found and parses; fail unless `csrf` and `transId` are
truthy; fail unless the credential response is JSON with status `"200"`;
follow redirects manually for the code; fail when no (or an empty) code was
captured; finally run `exchange_code` on the captured code.  Only that final
`exchange_code` touches the token state. -/
def headless_login (now : Int) (st : TokenState) (env : HeadlessEnv) : HeadlessResult :=
  match env.settings with
  | .noMatch => ⟨.error ⟨"Could not find SETTINGS in login page"⟩, st, none⟩
  | .badJson => ⟨.error ⟨"Failed to parse SETTINGS JSON from login page"⟩, st, none⟩
  | .parsed settings =>
    if ¬ (jsonTruthy (jsonGet settings "csrf") && jsonTruthy (jsonGet settings "transId")) then
      ⟨.error ⟨"Missing csrf or transId in login page SETTINGS"⟩, st, none⟩
    else
      match env.credResp with
      | .notJson text =>
        ⟨.error ⟨"Login response was not valid JSON: " ++ text.take 100⟩, st, none⟩
      | .jsonBody j =>
        if ¬ jsonIsStr200 (jsonGet j "status") then
          ⟨.error ⟨loginFailedMessage j⟩, st, none⟩
        else
          match redirectLoop env.hops with
          | none => ⟨.error ⟨noCodeMessage⟩, st, none⟩
          | some code =>
            if code = "" then ⟨.error ⟨noCodeMessage⟩, st, none⟩
            else
              let r := exchange_code now st code env.tokenResp
              ⟨r.outcome, r.state, some code⟩

/-! Theorems settling the claims. -/

/-- C5: for every token state, `is_authenticated` is true if and only if an
access token is present and `now < expires_at` (hence false whenever the
token is unset or `expires_at ≤ now`).  It is a pure function of the state
and the clock: the embedding gives it no request list and no state output,
mirroring that the Python property reads two attributes and performs no I/O
and no mutation. -/
theorem C5_is_authenticated_iff (now : Int) (st : TokenState) :
    is_authenticated now st = true ↔ st.access_token ≠ none ∧ now < st.expires_at := by
  simp [is_authenticated, Option.isSome_iff_ne_none]

/-- C8: `load_tokens` on a nonexistent path returns no tokens rather than
raising, and on an existing file whose contents fail to parse as JSON (or
any other I/O failure while loading, both covered by `FileContent.badFile`)
also returns no tokens; its total `Option` result type records that no
exception propagates. -/
theorem C8_load_tokens_recovers (fs : FileSystem) (file_path : String) :
    (fs file_path = none → load_tokens fs file_path = none) ∧
    (fs file_path = some .badFile → load_tokens fs file_path = none) := by
  constructor <;> intro h <;> simp [load_tokens, h]

/-- Witness for C8 at a concrete filesystem: a missing file and an
unparseable file both load as no tokens. -/
theorem C8_witness :
    load_tokens (fun _ => none) "tokens.json" = none ∧
    load_tokens (fun _ => some .badFile) "tokens.json" = none :=
  ⟨(C8_load_tokens_recovers (fun _ => none) "tokens.json").1 rfl,
   (C8_load_tokens_recovers (fun _ => some .badFile) "tokens.json").2 rfl⟩

/-- C9: for every token state (any combination of present and absent tokens
and any expiry), `save_tokens` followed by `load_tokens` on the same path
reproduces the saved blob, and rebuilding an `AuthManager` from the loaded
blob (the way `__init__` reads `token_data`) reproduces exactly the saved
`access_token`, `refresh_token` and `expires_at`. -/
theorem C9_save_load_roundtrip (fs : FileSystem) (file_path : String) (st : TokenState) :
    load_tokens (save_tokens fs file_path st) file_path = some (tokenBlob st) ∧
    initAuthManager (load_tokens (save_tokens fs file_path st) file_path) = st := by
  rcases st with ⟨a, r, e⟩
  refine ⟨by simp [load_tokens, save_tokens], ?_⟩
  rcases a with _ | a <;> rcases r with _ | r <;>
    simp [load_tokens, save_tokens, initAuthManager, tokenBlob, jsonGet, jsonGetStr,
      optToJson, List.lookup]

/-- C1 counterexample: a state holding a valid, non-expired access token
(`"A"`, expiry 1000, clock 0) but no refresh token.  The claim says
`get_access_token` returns `"A"` without raising; the code's leading
`if not self._refresh_token` guard raises `DimplexAuthError` instead. -/
theorem C1_counterexample_valid_token_raises :
    is_authenticated 0 ⟨some "A", none, 1000⟩ = true ∧
    (get_access_token 0 ⟨some "A", none, 1000⟩ ⟨200, "", ⟨none, none, none⟩⟩).outcome =
      .error ⟨"No refresh token available. User must authenticate first."⟩ ∧
    (get_access_token 0 ⟨some "A", none, 1000⟩ ⟨200, "", ⟨none, none, none⟩⟩).requests = [] := by
  decide

/-- C1 amended: when no (or an empty) refresh token is stored,
`get_access_token` raises `AuthError` without issuing any HTTP request, even
if a valid access token is held.  Otherwise: with a valid, non-expired access
token it returns that token with no HTTP request and no error; with the token
absent or expired it issues exactly one refresh request and, on a 200
response, returns the refreshed token, while a failed refresh propagates the
refresh `AuthError` unchanged. -/
theorem C1_get_access_token_contract (now : Int) (st : TokenState) (resp : HttpResponse) :
    (optStrTruthy st.refresh_token = false →
      get_access_token now st resp =
        ⟨[], .error ⟨"No refresh token available. User must authenticate first."⟩, st⟩) ∧
    (optStrTruthy st.refresh_token = true →
      (is_authenticated now st = true →
        get_access_token now st resp = ⟨[], .ok st.access_token, st⟩) ∧
      (is_authenticated now st = false →
        (get_access_token now st resp).requests = [refreshPayload st] ∧
        (resp.status = HTTP_OK →
          get_access_token now st resp =
            ⟨[refreshPayload st], .ok (update_tokens now st resp.jsonData).access_token,
              update_tokens now st resp.jsonData⟩) ∧
        (resp.status ≠ HTTP_OK →
          get_access_token now st resp =
            ⟨[refreshPayload st],
              .error ⟨"Failed to refresh token: " ++ toString resp.status ++ " - " ++ resp.text⟩,
              st⟩))) := by
  refine ⟨fun hf => ?_, fun ht => ⟨fun ha => ?_, fun hna => ⟨?_, fun hok => ?_, fun hbad => ?_⟩⟩⟩
  · simp [get_access_token, hf]
  · simp [get_access_token, ht, ha]
  · simp [get_access_token, refresh_tokens, ht, hna]
  · simp [get_access_token, refresh_tokens, ht, hna, hok, update_tokens, Except.map]
  · simp [get_access_token, refresh_tokens, ht, hna, hbad, Except.map]

/-- Witness for C1 at a concrete authenticated state: the cached token comes
back with no request and no error. -/
theorem C1_witness_cached_token :
    get_access_token 0 ⟨some "A", some "r", 100⟩ ⟨200, "", ⟨none, none, none⟩⟩ =
      ⟨[], .ok (some "A"), ⟨some "A", some "r", 100⟩⟩ :=
  ((C1_get_access_token_contract 0 ⟨some "A", some "r", 100⟩
      ⟨200, "", ⟨none, none, none⟩⟩).2 (by decide)).1 (by decide)

/-- C2 counterexample: a 400 response with body `{"error":"invalid_grant"}`.
The claim says the `AuthError` of `exchange_code` carries the HTTP status and
the body; the raised error's message (all a `DimplexAuthError` carries) is
`Failed to exchange code: {"error":"invalid_grant"}`, which contains the body
but nowhere the status 400. -/
theorem C2_counterexample_exchange_drops_status :
    (exchange_code 0 ⟨some "A", some "R", 50⟩ "c"
        ⟨400, "\x7b\"error\":\"invalid_grant\"\x7d", ⟨none, none, none⟩⟩).outcome =
      .error ⟨"Failed to exchange code: \x7b\"error\":\"invalid_grant\"\x7d"⟩ ∧
    strContains "Failed to exchange code: \x7b\"error\":\"invalid_grant\"\x7d" "400" = false ∧
    (exchange_code 0 ⟨some "A", some "R", 50⟩ "c"
        ⟨400, "\x7b\"error\":\"invalid_grant\"\x7d", ⟨none, none, none⟩⟩).state =
      ⟨some "A", some "R", 50⟩ := by
  decide

/-- C2 amended: on every non-2xx token endpoint response, `exchange_code` and
`refresh_tokens` both raise `AuthError` and leave the prior token state
unchanged; the error of `refresh_tokens` carries the HTTP status and the
response body, the error of `exchange_code` carries only the body. -/
theorem C2_non2xx_raises_state_unchanged (now : Int) (st : TokenState) (code : String)
    (resp : HttpResponse) (h : resp.status < 200 ∨ 299 < resp.status) :
    exchange_code now st code resp =
      ⟨[exchangePayload code], .error ⟨"Failed to exchange code: " ++ resp.text⟩, st⟩ ∧
    refresh_tokens now st resp =
      ⟨[refreshPayload st],
        .error ⟨"Failed to refresh token: " ++ toString resp.status ++ " - " ++ resp.text⟩,
        st⟩ := by
  have hne : resp.status ≠ HTTP_OK := by
    rcases h with h | h <;> simp only [HTTP_OK] <;> omega
  constructor <;> simp [exchange_code, refresh_tokens, hne]

/-- Witness for C2 at a concrete 400 response. -/
theorem C2_witness :
    refresh_tokens 0 ⟨none, some "R", 0⟩ ⟨400, "bad", ⟨none, none, none⟩⟩ =
      ⟨[refreshPayload ⟨none, some "R", 0⟩], .error ⟨"Failed to refresh token: 400 - bad"⟩,
        ⟨none, some "R", 0⟩⟩ :=
  ((C2_non2xx_raises_state_unchanged 0 ⟨none, some "R", 0⟩ "c"
      ⟨400, "bad", ⟨none, none, none⟩⟩ (Or.inr (by decide))).2).trans (by decide)

/-- C3 counterexample: a 201 response (successful by the claim's "2xx"
reading) carrying `access_token "A"`, `refresh_token "B"`, `expires_in 3600`
at time 0.  The claim predicts post-call `access_token == "A"`; the code
compares the status against `HTTP_OK = 200` exactly, so it raises
`AuthError` and leaves the state untouched. -/
theorem C3_counterexample_201_not_processed :
    (refresh_tokens 0 ⟨none, none, 0⟩ ⟨201, "", ⟨some "A", some "B", some 3600⟩⟩).state =
      ⟨none, none, 0⟩ ∧
    (refresh_tokens 0 ⟨none, none, 0⟩ ⟨201, "", ⟨some "A", some "B", some 3600⟩⟩).outcome =
      .error ⟨"Failed to refresh token: 201 - "⟩ := by
  decide

/-- C3 amended: for every token endpoint JSON response with status 200 (the
only status the code treats as success) containing `access_token a`,
`refresh_token b` and `expires_in 3600`, processed at time `now`, the
post-call state of either endpoint call is exactly
`⟨a, b, now + 3600 - 60⟩`; and when `expires_in` is absent the default
lifetime 3600 is used before subtracting the 60-second buffer. -/
theorem C3_success_updates_tokens (now : Int) (st : TokenState) (code : String)
    (resp : HttpResponse) (a b : String) (hok : resp.status = HTTP_OK) :
    (resp.jsonData = ⟨some a, some b, some 3600⟩ →
      (refresh_tokens now st resp).state = ⟨some a, some b, now + 3600 - 60⟩ ∧
      (refresh_tokens now st resp).outcome = .ok () ∧
      (exchange_code now st code resp).state = ⟨some a, some b, now + 3600 - 60⟩ ∧
      (exchange_code now st code resp).outcome = .ok ()) ∧
    (resp.jsonData.expires_in = none →
      (refresh_tokens now st resp).state.expires_at = now + 3600 - 60 ∧
      (exchange_code now st code resp).state.expires_at = now + 3600 - 60) := by
  constructor
  · intro hj
    simp [refresh_tokens, exchange_code, hok, hj, update_tokens]
  · intro hj
    simp [refresh_tokens, exchange_code, hok, update_tokens, hj]

/-- Witness for C3 at a concrete 200 response at time 1000. -/
theorem C3_witness :
    (refresh_tokens 1000 ⟨none, some "old", 0⟩
        ⟨200, "", ⟨some "A", some "B", some 3600⟩⟩).state = ⟨some "A", some "B", 4540⟩ := by
  have h := (C3_success_updates_tokens 1000 ⟨none, some "old", 0⟩ "c"
      ⟨200, "", ⟨some "A", some "B", some 3600⟩⟩ "A" "B" rfl).1 rfl
  exact h.1.trans (by decide)

/-- C4 counterexample: `refresh_tokens` on a state with no stored refresh
token.  The claim says it fails before attempting any network call; the code
has no such guard and issues the token-endpoint POST (with `refresh_token`
`None` in the payload) unconditionally. -/
theorem C4_counterexample_refresh_posts_anyway :
    (refresh_tokens 0 ⟨none, none, 0⟩ ⟨400, "bad", ⟨none, none, none⟩⟩).requests =
      [refreshPayload ⟨none, none, 0⟩] ∧
    (refreshPayload ⟨none, none, 0⟩).refresh_token = some none := by
  decide

/-- C4 amended: the fail-fast lives one layer up: `get_access_token` with no
(or an empty) stored refresh token raises `AuthError` without any HTTP
request, while `refresh_tokens` itself always issues exactly one
token-endpoint POST, whatever the stored refresh token. -/
theorem C4_no_refresh_token_guard (now : Int) (st : TokenState) (resp : HttpResponse)
    (h : optStrTruthy st.refresh_token = false) :
    get_access_token now st resp =
      ⟨[], .error ⟨"No refresh token available. User must authenticate first."⟩, st⟩ ∧
    (refresh_tokens now st resp).requests = [refreshPayload st] := by
  refine ⟨?_, rfl⟩
  simp [get_access_token, h]

/-- Witness for C4 at a concrete tokenless state. -/
theorem C4_witness :
    get_access_token 0 ⟨none, none, 0⟩ ⟨400, "bad", ⟨none, none, none⟩⟩ =
      ⟨[], .error ⟨"No refresh token available. User must authenticate first."⟩,
        ⟨none, none, 0⟩⟩ :=
  (C4_no_refresh_token_guard 0 ⟨none, none, 0⟩ ⟨400, "bad", ⟨none, none, none⟩⟩ rfl).1

/-- C10 counterexample: the claim quantifies over every 2xx response, but a
201 response is not processed at all: with a 201 body omitting both tokens,
the stored refresh token survives (not overwritten with `None`) and an
`AuthError` is raised. -/
theorem C10_counterexample_201 :
    (exchange_code 0 ⟨some "O", some "R", 99⟩ "c" ⟨201, "x", ⟨none, none, none⟩⟩).state =
      ⟨some "O", some "R", 99⟩ ∧
    (exchange_code 0 ⟨some "O", some "R", 99⟩ "c" ⟨201, "x", ⟨none, none, none⟩⟩).outcome =
      .error ⟨"Failed to exchange code: x"⟩ := by
  decide

/-- C10 amended: for every status-200 token endpoint JSON response,
`_update_tokens` is applied unconditionally with no validation by both
`exchange_code` and `refresh_tokens`, which raise no error: a response
omitting `refresh_token` overwrites the stored refresh token with `None`,
and one omitting `access_token` leaves `access_token` `None`, so the engine
is unauthenticated at every clock afterwards. -/
theorem C10_unvalidated_update (now : Int) (st : TokenState) (code : String)
    (resp : HttpResponse) (hok : resp.status = HTTP_OK) :
    (refresh_tokens now st resp).state = update_tokens now st resp.jsonData ∧
    (refresh_tokens now st resp).outcome = .ok () ∧
    (exchange_code now st code resp).state = update_tokens now st resp.jsonData ∧
    (exchange_code now st code resp).outcome = .ok () ∧
    (resp.jsonData.refresh_token = none →
      (update_tokens now st resp.jsonData).refresh_token = none) ∧
    (resp.jsonData.access_token = none →
      (update_tokens now st resp.jsonData).access_token = none ∧
      ∀ t : Int, is_authenticated t (update_tokens now st resp.jsonData) = false) := by
  refine ⟨?_, ?_, ?_, ?_, fun hr => ?_, fun ha => ⟨?_, fun t => ?_⟩⟩ <;>
    simp [refresh_tokens, exchange_code, hok, update_tokens, is_authenticated, *]

/-- Witness for C10: a 200 response with an empty JSON body wipes both stored
tokens without raising. -/
theorem C10_witness :
    (refresh_tokens 0 ⟨some "O", some "R", 99⟩ ⟨200, "", ⟨none, none, none⟩⟩).state.refresh_token =
      none ∧
    (refresh_tokens 0 ⟨some "O", some "R", 99⟩ ⟨200, "", ⟨none, none, none⟩⟩).state.access_token =
      none := by
  have h := C10_unvalidated_update 0 ⟨some "O", some "R", 99⟩ "c"
    ⟨200, "", ⟨none, none, none⟩⟩ rfl
  exact ⟨by rw [h.1]; exact h.2.2.2.2.1 rfl, by rw [h.1]; exact (h.2.2.2.2.2 rfl).1⟩

/-- Helper for C6: when every hop reachable within the iteration budget
either does not trigger the success test or extracts only an empty code, the
manual redirect loop yields no usable code (`None` or `""`). -/
theorem redirectStep_no_code (n : Nat) (hops : List RedirectHop)
    (h : ∀ hop ∈ hops.take n, ∀ loc, hop.location = some loc →
      locationHasCode loc = false ∨ extractCode loc = "") :
    redirectStep n hops = none ∨ redirectStep n hops = some "" := by
  induction n generalizing hops with
  | zero => exact Or.inl rfl
  | succ n ih =>
    cases hops with
    | nil => exact Or.inl rfl
    | cons hop rest =>
      have hhop : ∀ loc, hop.location = some loc →
          locationHasCode loc = false ∨ extractCode loc = "" := by
        intro loc hl
        exact h hop (by simp) loc hl
      by_cases hs : hop.status = 302 ∨ hop.status = 303 ∨ hop.status = 301
      · rcases hl : hop.location with _ | loc
        · exact Or.inl (by simp [redirectStep, hs, hl])
        · rcases hhop loc hl with hm | hm
          · have hrest : ∀ x ∈ rest.take n, ∀ loc, x.location = some loc →
                locationHasCode loc = false ∨ extractCode loc = "" := by
              intro x hx loc hxl
              refine h x ?_ loc hxl
              rw [List.take_succ_cons]
              exact List.mem_cons_of_mem _ hx
            have := ih rest hrest
            simpa [redirectStep, hs, hl, hm] using this
          · by_cases hmm : locationHasCode loc = true
            · exact Or.inr (by simp [redirectStep, hs, hl, hmm, hm])
            · have hmf : locationHasCode loc = false := by
                cases hv : locationHasCode loc
                · rfl
                · exact absurd hv hmm
              have hrest : ∀ x ∈ rest.take n, ∀ loc, x.location = some loc →
                  locationHasCode loc = false ∨ extractCode loc = "" := by
                intro x hx loc hxl
                refine h x ?_ loc hxl
                rw [List.take_succ_cons]
                exact List.mem_cons_of_mem _ hx
              have := ih rest hrest
              simpa [redirectStep, hs, hl, hmf] using this
      · exact Or.inl (by simp [redirectStep, hs])

/-- C6: with the earlier headless-login stages passing, (a) for every
redirect chain whose first two hops are 302 redirects with non-matching
`Location` targets and whose third hop is a 302 whose `Location` query
string's first `code` parameter is `XYZ123`, the engine extracts `"XYZ123"`
and hands exactly that code to `exchange_code`; (b) for every chain that
yields no code parameter within the bound of 10 hops — every reachable hop
either fails the success test (a hop with no `Location` header included) or
extracts only an empty code — it raises `AuthError`. -/
theorem C6_redirect_following (now : Int) (st : TokenState) (settings cred : Json)
    (tokenResp : HttpResponse)
    (hset : jsonTruthy (jsonGet settings "csrf") = true)
    (htrans : jsonTruthy (jsonGet settings "transId") = true)
    (hstat : jsonIsStr200 (jsonGet cred "status") = true) :
    (∀ (h1 h2 h3 : RedirectHop) (rest : List RedirectHop) (l1 l2 l3 : String),
      h1.status = 302 → h1.location = some l1 → locationHasCode l1 = false →
      h2.status = 302 → h2.location = some l2 → locationHasCode l2 = false →
      h3.status = 302 → h3.location = some l3 → locationHasCode l3 = true →
      firstQsValue "code".toList (splitOnChar '&' (urlQuery l3)) = some "XYZ123".toList →
      (headless_login now st
          ⟨.parsed settings, .jsonBody cred, h1 :: h2 :: h3 :: rest, tokenResp⟩).exchangedCode =
        some "XYZ123") ∧
    (∀ hops : List RedirectHop,
      (∀ hop ∈ hops.take 10, ∀ loc, hop.location = some loc →
        locationHasCode loc = false ∨ extractCode loc = "") →
      (headless_login now st
          ⟨.parsed settings, .jsonBody cred, hops, tokenResp⟩).outcome =
        .error ⟨noCodeMessage⟩) := by
  constructor
  · intro h1 h2 h3 rest l1 l2 l3 hs1 hl1 hm1 hs2 hl2 hm2 hs3 hl3 hm3 hcode
    have hx : extractCode l3 = "XYZ123" := by
      unfold extractCode
      rw [hcode]
      rfl
    have hloop : redirectLoop (h1 :: h2 :: h3 :: rest) = some "XYZ123" := by
      simp [redirectLoop, redirectStep, hs1, hl1, hm1, hs2, hl2, hm2, hs3, hl3, hm3, hx]
    simp [headless_login, hset, htrans, hstat, hloop]
  · intro hops hnone
    rcases redirectStep_no_code 10 hops hnone with hloop | hloop <;>
      simp [headless_login, hset, htrans, hstat, redirectLoop, hloop]

/-- Witness for C6 at a synthetic three-hop chain carrying `code=XYZ123` on
the third hop, and at a chain whose only hop has no `Location` header. -/
theorem C6_witness :
    (headless_login 0 ⟨none, none, 0⟩
        ⟨.parsed (.obj [("csrf", .str "tok"), ("transId", .str "tx")]),
          .jsonBody (.obj [("status", .str "200")]),
          [⟨302, some "https://a/1"⟩, ⟨302, some "https://a/2"⟩,
            ⟨302, some "msauth://x?code=XYZ123"⟩],
          ⟨200, "", ⟨some "T", some "R", some 3600⟩⟩⟩).exchangedCode = some "XYZ123" ∧
    (headless_login 0 ⟨none, none, 0⟩
        ⟨.parsed (.obj [("csrf", .str "tok"), ("transId", .str "tx")]),
          .jsonBody (.obj [("status", .str "200")]),
          [⟨302, none⟩],
          ⟨200, "", ⟨some "T", some "R", some 3600⟩⟩⟩).outcome = .error ⟨noCodeMessage⟩ := by
  have h := C6_redirect_following 0 ⟨none, none, 0⟩
    (.obj [("csrf", .str "tok"), ("transId", .str "tx")])
    (.obj [("status", .str "200")])
    ⟨200, "", ⟨some "T", some "R", some 3600⟩⟩
    (by decide) (by decide) (by decide)
  refine ⟨h.1 ⟨302, some "https://a/1"⟩ ⟨302, some "https://a/2"⟩
      ⟨302, some "msauth://x?code=XYZ123"⟩ [] "https://a/1" "https://a/2"
      "msauth://x?code=XYZ123" rfl rfl (by decide) rfl rfl (by decide) rfl rfl
      (by decide) (by decide),
    h.2 [⟨302, none⟩] ?_⟩
  intro hop hm loc hl
  have : hop = ⟨302, none⟩ := by simpa using hm
  subst this
  simp at hl

/-- Helper for C7: a failed `exchange_code` leaves the token state
untouched. -/
theorem exchange_code_error_keeps_state (now : Int) (st : TokenState) (code : String)
    (resp : HttpResponse) (e : AuthError)
    (h : (exchange_code now st code resp).outcome = .error e) :
    (exchange_code now st code resp).state = st := by
  by_cases hs : resp.status = HTTP_OK
  · simp [exchange_code, hs] at h
  · simp [exchange_code, hs]

/-- C7: every execution of `headless_login` that fails — at whatever stage:
missing SETTINGS blob, malformed SETTINGS JSON, missing `csrf` or `transId`,
non-JSON or non-"200" credential response, redirect chain exhausted, or a
failing final code exchange — raises an `AuthError` (the embedding's only
error type) and leaves `access_token`, `refresh_token` and `expires_at`
exactly as they were before the call. -/
theorem C7_failure_preserves_state (now : Int) (st : TokenState) (env : HeadlessEnv)
    (e : AuthError) (h : (headless_login now st env).outcome = .error e) :
    (headless_login now st env).state = st := by
  rcases env with ⟨settings, credResp, hops, tokenResp⟩
  cases settings with
  | noMatch => rfl
  | badJson => rfl
  | parsed s =>
    by_cases h1 : (jsonTruthy (jsonGet s "csrf") && jsonTruthy (jsonGet s "transId")) = true
    · cases credResp with
      | notJson t => simp [headless_login, h1]
      | jsonBody j =>
        by_cases h2 : jsonIsStr200 (jsonGet j "status") = true
        · rcases hloop : redirectLoop hops with _ | code
          · simp [headless_login, h1, h2, hloop]
          · by_cases h3 : code = ""
            · simp [headless_login, h1, h2, hloop, h3]
            · simp only [headless_login, h1, h2, hloop, h3] at h ⊢
              simp only [Bool.and_eq_true] at h1
              simp only [h1, h2, and_self, not_true_eq_false, if_false, if_neg h3] at h ⊢
              exact exchange_code_error_keeps_state now st code tokenResp e h
        · simp [headless_login, h1, h2]
    · simp [headless_login, h1]

/-- Witness for C7: a login page with no SETTINGS blob fails and leaves a
concrete token state unchanged. -/
theorem C7_witness :
    (headless_login 0 ⟨some "A", some "R", 5⟩
        ⟨.noMatch, .notJson "x", [], ⟨200, "", ⟨none, none, none⟩⟩⟩).state =
      ⟨some "A", some "R", 5⟩ :=
  C7_failure_preserves_state 0 ⟨some "A", some "R", 5⟩
    ⟨.noMatch, .notJson "x", [], ⟨200, "", ⟨none, none, none⟩⟩⟩
    ⟨"Could not find SETTINGS in login page"⟩ rfl

end Dimplex
